import Mathlib

/-!
Verification of the b7s execution-orchestration core against its
natural-language specification.

The definitions below are a shallow embedding of the Go sources:

* `src/node/head/execute.go` — the head orchestrator: `execute` (roll call,
  cluster formation, dispatch, result aggregation), `processExecute`,
  `processWorkOrderResponse`, `determineThreshold`, `executionResultKey`;
* `src/node/head/head.go` — the worker-side cluster lifecycle:
  `createRaftCluster`, `createPBFTCluster`, `leaveCluster` (the file holds the
  current worker code and a legacy copy of the same functions; where the two
  differ it is noted below);
* `src/unnamed/part_000` — the legacy unified node package:
  `determineOverallCode`, `parseConsensusAlgorithm`, `executionResultKey`.

Go `float64` threshold arithmetic is modelled with `ℚ` (the program only
compares ratios of small non-negative counts, where rational and float
arithmetic agree); Go maps are modelled as association lists; fallible Go
functions return `Except`/`Option`.
-/

namespace B7s

/-- The closed result-code enum of `models/codes` used by the orchestration
core: `OK | Error | Invalid | Timeout | NoContent | PartialContent`. -/
inductive Code where
  | ok
  | error
  | invalid
  | timeout
  | noContent
  | partialContent
deriving DecidableEq, Repr

/-- Opaque identity of a network participant (libp2p `peer.ID`), comparable
and stringifiable; modelled by its string form. -/
abbrev PeerID : Type := String

/-- An execution result reported by one node (`execute.NodeResult`): the
result code plus the output. Only the fields the claims mention are kept. -/
structure NodeResult where
  code : Code
  stdout : String
deriving DecidableEq, Repr

/-- `execute.ResultMap`: a Go map from peer ID to that peer's result, modelled
as an association list with distinct keys. -/
abbrev ResultMap : Type := List (PeerID × NodeResult)

/-- The request's `execute.Config` fields consulted by the orchestrator. -/
structure ExecutionConfig where
  consensusAlgorithm : String
  nodeCount : Int
  threshold : ℚ
deriving DecidableEq, Repr

/-- `execute.Request`: function identity plus its configuration. -/
structure Request where
  functionID : String
  config : ExecutionConfig
deriving DecidableEq, Repr

/-- Modelled from the spec: the constant `defaultExecutionThreshold` is not
under src/ (only its use in `determineThreshold` is); the spec gives the
default threshold as e.g. 0.5, lying in the interval (0, 1]. -/
def defaultExecutionThreshold : ℚ := 1 / 2

/-- From `src/node/head/execute.go` lines 207-214: the configured threshold is
used when it lies in (0, 1], otherwise the default threshold applies. -/
def determineThreshold (req : Request) : ℚ :=
  if req.config.threshold > 0 ∧ req.config.threshold ≤ 1 then
    req.config.threshold
  else
    defaultExecutionThreshold

/-- From `src/node/head/execute.go` lines 179-191, the non-PBFT scoring of the
head orchestrator: compute the response ratio |results| / |peers| (Go local
variable `respondRatio`), then return `NoContent` when the ratio is zero,
`PartialContent` when it is below the threshold, and `OK` otherwise. The Go
code never inspects the codes of the individual results. -/
def gatherRetcode (req : Request) (reportingPeers : List PeerID) (results : ResultMap) : Code :=
  let respondFrac : ℚ := (results.length : ℚ) / (reportingPeers.length : ℚ)
  let threshold := determineThreshold req
  if respondFrac = 0 then Code.noContent
  else if respondFrac < threshold then Code.partialContent
  else Code.ok

/-- From `src/node/head/execute.go` lines 159-172, the PBFT branch: start from
`retcode := codes.OK` and overwrite it with the code of the first result the
map iteration yields (iteration over Go maps is order-arbitrary; the list head
stands for it, and the theorems below only use the order-independent empty and
singleton shapes, which is faithful because the spec's
`gatherExecutionResultsPBFT` — not under src/ — waits for at most one
authoritative result). -/
def pbftRetcode (results : ResultMap) : Code :=
  match results with
  | [] => Code.ok
  | (_, r) :: _ => r.code

/-- The value returned by the PBFT branch of `execute`
(`src/node/head/execute.go` line 172): the retcode, the gathered results and a
nil error. -/
def pbftReturn (results : ResultMap) : Code × ResultMap × Option String :=
  (pbftRetcode results, results, Option.none)

/-- From `src/unnamed/part_000` lines 43-64, the legacy aggregate
`determineOverallCode`: `NoContent` for no results, the single result's code
for exactly one, else `OK` iff some result succeeded. The current head
orchestrator (`src/node/head/execute.go`) does not call it. -/
def determineOverallCode (results : List (String × NodeResult)) : Code :=
  match results with
  | [] => Code.noContent
  | [(_, r)] => r.code
  | rs => if rs.any (fun pr => pr.2.code == Code.ok) then Code.ok else Code.error

theorem determineThreshold_pos (req : Request) : 0 < determineThreshold req := by
  unfold determineThreshold
  split
  · next h => exact h.1
  · norm_num [defaultExecutionThreshold]

theorem determineThreshold_le_one (req : Request) : determineThreshold req ≤ 1 := by
  unfold determineThreshold
  split
  · next h => exact h.2
  · norm_num [defaultExecutionThreshold]

/-- C8: for every execution request, the effective threshold equals the
request's configured threshold when that value lies in (0, 1], and equals the
default threshold otherwise (configured threshold 0, unset, negative, or
greater than 1). -/
theorem C8_threshold (req : Request) :
    (0 < req.config.threshold ∧ req.config.threshold ≤ 1 →
      determineThreshold req = req.config.threshold) ∧
    (¬(0 < req.config.threshold ∧ req.config.threshold ≤ 1) →
      determineThreshold req = defaultExecutionThreshold) := by
  constructor
  · intro h
    simp [determineThreshold, h.1, h.2]
  · intro h
    unfold determineThreshold
    split
    · next hc => exact absurd ⟨hc.1, hc.2⟩ h
    · rfl

/-- Witness for C8: a configured threshold of 2 (greater than 1) is replaced
by the default threshold. -/
theorem C8_threshold_witness :
    determineThreshold ⟨"f", ⟨"", 1, 2⟩⟩ = defaultExecutionThreshold :=
  (C8_threshold ⟨"f", ⟨"", 1, 2⟩⟩).2 (by norm_num)

/-- C1 counterexample: with two selected peers, both replying with code
`Error`, and a configured threshold of 1 (ratio 2/2 = 1 meets it), the head
orchestrator returns `OK` even though no replied peer returned `OK` — the
claim requires `Error` here. -/
theorem C1_counterexample :
    gatherRetcode ⟨"f", ⟨"", 2, 1⟩⟩ ["p1", "p2"]
        [("p1", ⟨Code.error, ""⟩), ("p2", ⟨Code.error, ""⟩)] = Code.ok ∧
    ([("p1", ⟨Code.error, ""⟩), ("p2", ⟨Code.error, ""⟩)] : ResultMap).all
        (fun pr => pr.2.code != Code.ok) = true := by
  refine ⟨?_, by decide⟩
  norm_num [gatherRetcode, determineThreshold, ResultMap, PeerID]

/-- C1 (amended): for a non-PBFT execution over a nonempty peer set, the head
orchestrator's overall code is `NoContent` when no result arrived,
`PartialContent` when the count of results is below threshold × |peers|, and
`OK` otherwise — regardless of the codes of the individual results. -/
theorem C1_scoring (req : Request) (peers : List PeerID) (results : ResultMap)
    (hp : 0 < peers.length) :
    (results.length = 0 → gatherRetcode req peers results = Code.noContent) ∧
    (0 < results.length →
      (results.length : ℚ) < determineThreshold req * (peers.length : ℚ) →
      gatherRetcode req peers results = Code.partialContent) ∧
    (0 < results.length →
      determineThreshold req * (peers.length : ℚ) ≤ (results.length : ℚ) →
      gatherRetcode req peers results = Code.ok) := by
  have hpq : (0 : ℚ) < (peers.length : ℚ) := by exact_mod_cast hp
  refine ⟨?_, ?_, ?_⟩
  · intro h0
    simp [gatherRetcode, h0]
  · intro hr hlt
    have hrq : (0 : ℚ) < (results.length : ℚ) := by exact_mod_cast hr
    have hfrac : (results.length : ℚ) / (peers.length : ℚ) <
        determineThreshold req := by
      rw [div_lt_iff₀ hpq]
      linarith [hlt]
    have hne : ¬((results.length : ℚ) / (peers.length : ℚ) = 0) := by
      positivity
    simp only [gatherRetcode]
    rw [if_neg hne, if_pos hfrac]
  · intro hr hge
    have hrq : (0 : ℚ) < (results.length : ℚ) := by exact_mod_cast hr
    have hfrac : ¬((results.length : ℚ) / (peers.length : ℚ) <
        determineThreshold req) := by
      rw [not_lt, le_div_iff₀ hpq]
      linarith [hge]
    have hne : ¬((results.length : ℚ) / (peers.length : ℚ) = 0) := by
      positivity
    simp only [gatherRetcode]
    rw [if_neg hne, if_neg hfrac]

/-- Witness for C1 (amended): one of two peers responds under a configured
threshold of 1, so the head returns `PartialContent`. -/
theorem C1_scoring_witness :
    gatherRetcode ⟨"f", ⟨"", 2, 1⟩⟩ ["p1", "p2"] [("p1", ⟨Code.ok, ""⟩)] =
      Code.partialContent :=
  (C1_scoring ⟨"f", ⟨"", 2, 1⟩⟩ ["p1", "p2"] [("p1", ⟨Code.ok, ""⟩)]
      (by decide)).2.1 (by decide)
    (by norm_num [determineThreshold, ResultMap, PeerID])

/-- C2 counterexample: a single selected peer reports a result with code
`Error`, yet the head orchestrator's overall code is `OK` (ratio 1/1 meets any
threshold in (0, 1]) — the claim requires the peer's own code `Error`. -/
theorem C2_counterexample :
    gatherRetcode ⟨"f", ⟨"", 1, 1⟩⟩ ["p"] [("p", ⟨Code.error, ""⟩)] = Code.ok ∧
    Code.ok ≠ Code.error := by
  refine ⟨?_, by decide⟩
  norm_num [gatherRetcode, determineThreshold, ResultMap, PeerID]

/-- C2 (amended): for a non-PBFT execution whose cluster is a single selected
peer that reported a result, the head orchestrator's overall code is `OK`
regardless of the code the peer returned and regardless of the configured
threshold. -/
theorem C2_single_peer (req : Request) (p : PeerID) (r : NodeResult) :
    gatherRetcode req [p] [(p, r)] = Code.ok := by
  have hle := determineThreshold_le_one req
  simp only [gatherRetcode, List.length_cons, List.length_nil]
  norm_num
  intro h
  linarith

/-- C7: for a PBFT execution in which the single authoritative result arrived,
the code returned by the orchestrator's Execute equals the code of that
result, and the returned result map contains it. -/
theorem C7_pbft_code (p : PeerID) (r : NodeResult) :
    (pbftReturn [(p, r)]).1 = r.code ∧
    (p, r) ∈ (pbftReturn [(p, r)]).2.1 := by
  exact ⟨rfl, List.mem_singleton.mpr rfl⟩

/-- C10: for a PBFT execution in which no result at all arrived, the head
orchestrator returns code `OK` with an empty result map and a nil error —
not `NoContent` and not `Timeout`. -/
theorem C10_pbft_empty :
    pbftReturn [] = (Code.ok, ([] : ResultMap), (Option.none : Option String)) ∧
    Code.ok ≠ Code.noContent ∧ Code.ok ≠ Code.timeout := by
  exact ⟨rfl, by decide, by decide⟩

/-- The tagged consensus variant (`consensus.Type`): 0 = none, Raft, PBFT. -/
inductive ConsensusType where
  | none
  | raft
  | pbft
deriving DecidableEq, Repr

/-- Go `strings.ToLower`, modelled character-wise with `Char.toLower` (on the
ASCII inputs the consensus grammar concerns, the two functions agree). -/
def goToLower (s : String) : String := ⟨s.data.map Char.toLower⟩

/-- From `src/unnamed/part_000` lines 66-82, `parseConsensusAlgorithm` (the
in-repository form of `consensus.Parse`, which is not under src/): the empty
string maps to no consensus and, after lower-casing, "raft" and "pbft" map to
their variants; anything else is an error. -/
def parseConsensusAlgorithm (value : String) : Except String ConsensusType :=
  if value = "" then Except.ok ConsensusType.none
  else
    match goToLower value with
    | "raft" => Except.ok ConsensusType.raft
    | "pbft" => Except.ok ConsensusType.pbft
    | _ => Except.error ("unknown consensus value (" ++ value ++ ")")

/-- From `src/node/head/execute.go` lines 86-90: the head parses the requested
consensus algorithm and, when parsing fails, logs the error and substitutes
the configured default consensus; the parse error is not propagated, so this
step is total and `execute` continues normally. -/
def headConsensusAlgo (value : String) (defaultConsensus : ConsensusType) : ConsensusType :=
  match parseConsensusAlgorithm value with
  | Except.ok c => c
  | Except.error _ => defaultConsensus

/-- C3 counterexample: for the string "paxos" the parser errors, but the head
proceeds with the configured default consensus (here Raft) instead of
surfacing an `InvalidConsensus` error to the caller of the execution
request — the claim requires the error to reach the caller. -/
theorem C3_counterexample :
    parseConsensusAlgorithm "paxos" =
      Except.error "unknown consensus value (paxos)" ∧
    headConsensusAlgo "paxos" ConsensusType.raft = ConsensusType.raft := by
  have h : goToLower "paxos" = "paxos" := by decide
  constructor
  · simp [parseConsensusAlgorithm, h]
  · simp [headConsensusAlgo, parseConsensusAlgorithm, h]

/-- C3 (amended): parsing is case-insensitive and accepts exactly "" (none),
"raft" (Raft) and "pbft" (PBFT); for any other string the parse fails, and the
head then continues with the configured default consensus algorithm instead of
surfacing the error to the caller. -/
theorem C3_grammar (value : String) (d : ConsensusType) :
    headConsensusAlgo value d =
      (if value = "" then ConsensusType.none
       else if goToLower value = "raft" then ConsensusType.raft
       else if goToLower value = "pbft" then ConsensusType.pbft
       else d) ∧
    ((parseConsensusAlgorithm value).isOk = true ↔
      (value = "" ∨ goToLower value = "raft" ∨ goToLower value = "pbft")) := by
  unfold headConsensusAlgo parseConsensusAlgorithm
  by_cases h0 : value = "" <;> by_cases h1 : goToLower value = "raft" <;>
    by_cases h2 : goToLower value = "pbft" <;>
      simp [h0, h1, h2, Except.isOk, Except.toBool]

/-- A worker-side consensus replica handle (`consensusExecutor`): an id to
tell handles apart and whether its `Shutdown()` call returns nil. -/
structure ConsensusReplica where
  id : Nat
  shutdownOk : Bool
deriving DecidableEq, BEq, Repr

/-- The worker's cluster registry, a Go map from request ID to the replica
handle, modelled as an association list with distinct keys. -/
abbrev Registry : Type := List (String × ConsensusReplica)

/-- Go map assignment `clusters[requestID] = handle` (and the `syncmap.Set`
wrapper of the current worker): stores the handle under the key,
unconditionally replacing any previous entry. -/
def mapSet (clusters : Registry) (k : String) (v : ConsensusReplica) : Registry :=
  (k, v) :: clusters.filter (fun entry => entry.1 != k)

/-- Go `delete(clusters, requestID)` (and the `syncmap.Delete` wrapper). -/
def mapDelete (clusters : Registry) (k : String) : Registry :=
  clusters.filter (fun entry => entry.1 != k)

/-- From `src/node/head/head.go`, `createRaftCluster`/`createPBFTCluster`
(both the current worker version using `clusters.Set` and the legacy one assigning
`w.clusters[fc.RequestID] = rh` directly): after the replica is constructed it
is registered under the request ID — with no check whether the key already
exists — and the worker replies `FormClusterResponse{OK}`. Replica
construction and message-send failures, which abort before registration, are
outside the registration behaviour this models. -/
def createCluster (clusters : Registry) (requestID : String) (handle : ConsensusReplica) :
    Registry × Code :=
  (mapSet clusters requestID handle, Code.ok)

/-- From `src/node/head/head.go` lines 183-215 (and the identical legacy copy
at lines 343-376), `leaveCluster`: look the replica up (error "no cluster with
that ID" when absent), wait for the local result, call `Shutdown()` — on a
shutdown error return the error without touching the registry — and only on
success delete the registry entry. -/
def leaveCluster (clusters : Registry) (requestID : String) :
    Registry × Option String :=
  match clusters.lookup requestID with
  | Option.none => (clusters, Option.some "no cluster with that ID")
  | Option.some cluster =>
    if cluster.shutdownOk then
      (mapDelete clusters requestID, Option.none)
    else
      (clusters, Option.some ("could not leave cluster (request: " ++ requestID ++ ")"))

theorem lookup_mapDelete (clusters : Registry) (k : String) :
    (mapDelete clusters k).lookup k = Option.none := by
  unfold mapDelete
  induction clusters with
  | nil => rfl
  | cons hd tl ih =>
    rcases hd with ⟨a, v⟩
    by_cases h : a = k
    · subst h
      simp [List.filter_cons, ih]
    · have hb : ((a, v).1 != k) = true := by simp [h]
      simp only [List.filter_cons, hb, if_true]
      have hk : (k == a) = false := by
        simp [beq_eq_false_iff_ne]
        exact fun contra => h contra.symm
      simp [List.lookup, hk, ih]

/-- C4 counterexample: a worker holding a replica for request "r" whose
`Shutdown()` errors still has the registry entry for "r" after handling
`DisbandCluster("r")` — the claim requires the registry to contain no entry
for "r" even then. -/
theorem C4_counterexample :
    ((leaveCluster [("r", ⟨0, false⟩)] "r").1).lookup "r" =
      Option.some ⟨0, false⟩ ∧
    (leaveCluster [("r", ⟨0, false⟩)] "r").2 =
      Option.some "could not leave cluster (request: r)" := by
  constructor <;> rfl

/-- C4 (amended): after a worker handles `DisbandCluster(R)` via
`leaveCluster`, its cluster registry contains no entry for R provided the
replica's `Shutdown()` succeeded (or no replica was registered); when
`Shutdown()` returns an error the entry is retained and the error is
propagated. -/
theorem C4_registry_cleanup (clusters : Registry) (requestID : String)
    (h : ∀ c, clusters.lookup requestID = Option.some c → c.shutdownOk = true) :
    ((leaveCluster clusters requestID).1).lookup requestID = Option.none := by
  unfold leaveCluster
  cases hl : clusters.lookup requestID with
  | none => exact hl
  | some c =>
    have hc := h c hl
    simp only [hc, if_true]
    exact lookup_mapDelete clusters requestID

/-- Witness for C4 (amended): a registry whose sole replica shuts down
cleanly holds no entry for the request after `leaveCluster`. -/
theorem C4_registry_cleanup_witness :
    ((leaveCluster [("r", ⟨0, true⟩)] "r").1).lookup "r" = Option.none :=
  C4_registry_cleanup [("r", ⟨0, true⟩)] "r" (by
    intro c hc
    have : Option.some (⟨0, true⟩ : ConsensusReplica) = Option.some c := hc
    cases this
    rfl)

/-- C5 counterexample: a second `FormCluster` for request "r" is not rejected:
the registry entry is overwritten with the new handle (id 2 replaces id 1) and
the worker replies `OK` — the claim requires the old handle to stay and an
"already exists" error reply. -/
theorem C5_counterexample :
    (createCluster [("r", ⟨1, true⟩)] "r" ⟨2, true⟩).2 = Code.ok ∧
    ((createCluster [("r", ⟨1, true⟩)] "r" ⟨2, true⟩).1).lookup "r" =
      Option.some ⟨2, true⟩ ∧
    Code.ok ≠ Code.error := by
  refine ⟨rfl, rfl, by decide⟩

/-- C5 (amended): cluster registration performs no duplicate check: for any
prior registry state — including one already holding the request ID — the
worker registers the new handle (overwriting any existing one) and replies
`OK`; nothing enforces at most one replica per (request_id, worker) pair. -/
theorem C5_registration (clusters : Registry) (requestID : String)
    (handle : ConsensusReplica) :
    (createCluster clusters requestID handle).2 = Code.ok ∧
    ((createCluster clusters requestID handle).1).lookup requestID =
      Option.some handle := by
  refine ⟨rfl, ?_⟩
  simp [createCluster, mapSet, List.lookup]

/-- From `src/node/head/execute.go` lines 216-218 (and the identical helper in
`src/unnamed/part_000` lines 35-37): the head's wait-map key for a result of
request `requestID` reported by peer `peerID`. -/
def executionResultKey (requestID : String) (peerID : PeerID) : String :=
  requestID ++ "/" ++ peerID

/-- From `src/node/head/execute.go` lines 194-205, `processWorkOrderResponse`:
the key under which the head stores an inbound `WorkOrderResponse` from a
peer. -/
def processWorkOrderResponseKey (requestID : String) (fromPeer : PeerID) : String :=
  executionResultKey requestID fromPeer

/-- From `src/node/head/head.go` lines 118-121, the Raft replica's cache
callback `cacheFn`: it stores the committed result with
`w.executeResponses.Set(req.RequestID, res)` — the key is the bare request
ID. -/
def raftCacheKey (requestID : String) : String :=
  requestID

/-- From `src/node/head/head.go` lines 148-150, the PBFT replica's cache
callback: it stores the consensus-agreed result with
`w.executeResponses.Set(fc.RequestID, res)` — again the bare request ID. -/
def pbftCacheKey (requestID : String) : String :=
  requestID

/-- C6 counterexample: when the Raft cache callback stores the committed
result of request "r" executed on peer "p", the key it writes is "r", not the
claimed "r" + "/" + "p". -/
theorem C6_counterexample :
    raftCacheKey "r" = "r" ∧
    raftCacheKey "r" ≠ executionResultKey "r" "p" := by
  exact ⟨rfl, by decide⟩

/-- C6 (amended): the head's wait-map writes for inbound WorkOrderResponses
use keys of the form request_id + "/" + peer_id, while the worker replicas'
cache callbacks (Raft and PBFT) key by the bare request ID — never of that
namespaced form. -/
theorem C6_key_shapes (requestID : String) (fromPeer : PeerID) :
    processWorkOrderResponseKey requestID fromPeer =
      requestID ++ "/" ++ fromPeer ∧
    raftCacheKey requestID = requestID ∧
    pbftCacheKey requestID = requestID ∧
    raftCacheKey requestID ≠ processWorkOrderResponseKey requestID fromPeer := by
  refine ⟨rfl, rfl, rfl, ?_⟩
  intro contra
  have hlen := congrArg String.length contra
  simp only [raftCacheKey, processWorkOrderResponseKey, executionResultKey,
    String.length_append] at hlen
  have hslash : ("/" : String).length = 1 := rfl
  omega

/-- The base error kinds `processExecute` distinguishes
(`blockless.ErrRollCallTimeout`, `blockless.ErrExecutionNotEnoughNodes`, and
everything else). -/
inductive BaseErr where
  | rollCallTimeout
  | executionNotEnoughNodes
  | otherErr (s : String)
deriving DecidableEq, Repr

/-- A Go error value as `processExecute` sees one: a sentinel error, possibly
wrapped any number of times by `fmt.Errorf("...: %w", err)`. -/
inductive GoError where
  | base (b : BaseErr)
  | wrap (msg : String) (inner : GoError)
deriving DecidableEq, Repr

/-- Go `errors.Is(err, target)`: the target sentinel is found anywhere along
the wrap chain. -/
def errorIs : GoError → BaseErr → Bool
  | GoError.base b, target => b == target
  | GoError.wrap _ inner, target => errorIs inner target

/-- The message of a sentinel error. -/
def baseErrText : BaseErr → String
  | BaseErr.rollCallTimeout => "roll call timeout"
  | BaseErr.executionNotEnoughNodes => "not enough nodes"
  | BaseErr.otherErr s => s

/-- Go `err.Error()`: wrap messages joined with ": " down to the sentinel. -/
def errorString : GoError → String
  | GoError.base b => baseErrText b
  | GoError.wrap msg inner => msg ++ ": " ++ errorString inner

/-- From `src/node/head/execute.go` lines 41-55, `processExecute`: the
response starts with an empty `ErrorMessage`, which is set to `err.Error()`
exactly when `errors.Is` finds `ErrRollCallTimeout` or
`ErrExecutionNotEnoughNodes` in the orchestration error; `none` stands for a
nil orchestration error. -/
def attachErrorMessage (execErr : Option GoError) : String :=
  match execErr with
  | Option.none => ""
  | Option.some e =>
    if errorIs e BaseErr.rollCallTimeout || errorIs e BaseErr.executionNotEnoughNodes then
      errorString e
    else
      ""

theorem errorString_ne_empty (e : GoError)
    (h : (errorIs e BaseErr.rollCallTimeout ||
          errorIs e BaseErr.executionNotEnoughNodes) = true) :
    errorString e ≠ "" := by
  cases e with
  | base b =>
    cases b with
    | rollCallTimeout => decide
    | executionNotEnoughNodes => decide
    | otherErr s =>
      exfalso
      simp only [errorIs, Bool.or_eq_true, beq_iff_eq] at h
      rcases h with h | h <;> exact BaseErr.noConfusion h
  | wrap msg inner =>
    intro contra
    have hlen := congrArg String.length contra
    simp only [errorString, String.length_append, String.length_empty] at hlen
    have hsep : (": " : String).length = 2 := rfl
    omega

/-- C9: the outbound ExecuteResponse's ErrorMessage is nonempty exactly when
the orchestration failed with `RollCallTimeout` or `ExecutionNotEnoughNodes`
(wrapped or not), in which case it carries the error text; every other
outcome — success or any other phase error — leaves ErrorMessage empty. -/
theorem C9_error_message :
    attachErrorMessage Option.none = "" ∧
    ∀ e : GoError,
      (attachErrorMessage (Option.some e) ≠ "" ↔
        (errorIs e BaseErr.rollCallTimeout = true ∨
         errorIs e BaseErr.executionNotEnoughNodes = true)) ∧
      ((errorIs e BaseErr.rollCallTimeout = true ∨
        errorIs e BaseErr.executionNotEnoughNodes = true) →
        attachErrorMessage (Option.some e) = errorString e) := by
  refine ⟨rfl, fun e => ⟨⟨?_, ?_⟩, ?_⟩⟩
  · intro hne
    by_contra hcond
    push_neg at hcond
    have h1 : errorIs e BaseErr.rollCallTimeout = false :=
      Bool.eq_false_iff.mpr (fun hh => hcond.1 hh)
    have h2 : errorIs e BaseErr.executionNotEnoughNodes = false :=
      Bool.eq_false_iff.mpr (fun hh => hcond.2 hh)
    simp [attachErrorMessage, h1, h2] at hne
  · intro hcond
    have hor : (errorIs e BaseErr.rollCallTimeout ||
        errorIs e BaseErr.executionNotEnoughNodes) = true := by
      rcases hcond with h | h <;> simp [h]
    simp only [attachErrorMessage, hor, if_true]
    exact errorString_ne_empty e hor
  · intro hcond
    have hor : (errorIs e BaseErr.rollCallTimeout ||
        errorIs e BaseErr.executionNotEnoughNodes) = true := by
      rcases hcond with h | h <;> simp [h]
    simp [attachErrorMessage, hor]

end B7s
